import Mathlib

/-!
Shallow embedding of the text-to-structured-field extraction core of the
Emirates ID extractor (source: `emirates_id_extractor.py`, class
`EmiratesIDExtractor`).

Records are association lists in insertion order, mirroring Python dicts as
built by the source (`Dict[str, str]`).  The external collaborators (S3,
Textract, the LangChain/OpenAI calls, `json.loads`) are modelled as explicit
parameters or `Except`-valued oracles; everything the source computes locally
(the regex fallback, the "Not Found" filter, the LINE-block join, the
delete-after-OCR control flow) is translated directly from the source.
-/

abbrev Record := List (String × String)

/-- Python `\s` on the ASCII range: space, tab, newline, carriage return,
vertical tab, form feed.  All inputs in this development are ASCII, where this
coincides with Python's `\s` and `str.strip()` whitespace. -/
def isPySpace (c : Char) : Bool :=
  c = ' ' || c = '\t' || c = '\n' || c = '\r' || c = '\x0b' || c = '\x0c'

/-- The regex class `[A-Za-z]`. -/
def isLatinLetter (c : Char) : Bool :=
  ('A' ≤ c && c ≤ 'Z') || ('a' ≤ c && c ≤ 'z')

/-- Python `str.strip()`: drop leading and trailing whitespace. -/
def pyStrip (l : List Char) : List Char :=
  ((l.dropWhile isPySpace).reverse.dropWhile isPySpace).reverse

/-- `re.search` scanning: try `matchAt` at every position left to right
(including the end-of-string position, which Python also tries) and return the
leftmost successful capture. -/
def reSearch (matchAt : List Char → Option (List Char)) : List Char → Option (List Char)
  | [] => matchAt []
  | c :: cs =>
    match matchAt (c :: cs) with
    | some r => some r
    | none => reSearch matchAt cs

/-- Backtracking match of `\s*([A-Za-z\s]+)` at the start of `rest`
(the part of the pattern after the literal label).  Since `\s ⊆ [A-Za-z\s]`,
the greedy engine consumes the maximal whitespace run with `\s*`; if a letter
follows, the capture is the remainder of the maximal `[A-Za-z\s]` run, and if
the whole run is whitespace the engine backtracks one character, leaving a
single-character capture.  No run at all means the pattern fails here. -/
def letterRunCapture (rest : List Char) : Option (List Char) :=
  let run := rest.takeWhile (fun c => isLatinLetter c || isPySpace c)
  match run with
  | [] => none
  | _ :: _ =>
    let ws := rest.takeWhile isPySpace
    if ws.length < run.length then
      some (run.drop ws.length)
    else
      match ws.getLast? with
      | some c => some [c]
      | none => none

/-- Match `lit` as a literal followed by `\s*([A-Za-z\s]+)` at this position:
the patterns `Name:\s*([A-Za-z\s]+)`, `Nationality:\s*([A-Za-z\s]+)` and
`Profession:\s*([A-Za-z\s]+)` of `extract_using_regex`. -/
def labelLettersAt (lit : List Char) (t : List Char) : Option (List Char) :=
  if lit.isPrefixOf t then letterRunCapture (t.drop lit.length) else none

/-- Match `[:/\s]+([0-9-]+)` at the start of `rest` (tail of the pattern
`ID Number[:/\s]+([0-9-]+)`).  The separator and capture classes are disjoint,
so backtracking the greedy `[:/\s]+` can never create a match that the maximal
runs miss: the match succeeds iff the maximal separator run is non-empty and a
digit or dash follows it. -/
def idCapture (rest : List Char) : Option (List Char) :=
  let seps := rest.takeWhile (fun c => c = ':' || c = '/' || isPySpace c)
  match seps with
  | [] => none
  | _ :: _ =>
    let cap := (rest.drop seps.length).takeWhile (fun c => c.isDigit || c = '-')
    match cap with
    | [] => none
    | _ :: _ => some cap

/-- Match `ID Number[:/\s]+([0-9-]+)` at this position. -/
def idNumberAt (t : List Char) : Option (List Char) :=
  if ("ID Number".data).isPrefixOf t then idCapture (t.drop 9) else none

/-- Match `Z\d{7}` at this position; `group(0)` is the whole 8-character
match (a longer digit run only contributes its first 7 digits). -/
def passportAt : List Char → Option (List Char)
  | [] => none
  | c :: cs =>
    if c = 'Z' && (cs.take 7).length = 7 && (cs.take 7).all Char.isDigit then
      some ('Z' :: cs.take 7)
    else
      none

/-- The alternation of the seven Emirates from the `place_of_issue` pattern,
in source order. -/
def emiratesAlternatives : List String :=
  ["Dubai", "Abu Dhabi", "Sharjah", "Ajman", "Umm Al Quwain", "Ras Al Khaimah", "Fujairah"]

/-- Case-insensitive literal prefix test (`re.IGNORECASE` over ASCII). -/
def ciIsPrefixOf (p : List Char) (t : List Char) : Bool :=
  p.length ≤ t.length && ((p.zip (t.take p.length)).all (fun pc => pc.1.toLower = pc.2.toLower))

/-- Match `(Dubai|Abu Dhabi|Sharjah|Ajman|Umm Al Quwain|Ras Al Khaimah|Fujairah)`
case-insensitively at this position; `group(1)` is the text as it appears in
the input, so the original-case slice is returned. -/
def placeAt (t : List Char) : Option (List Char) :=
  match emiratesAlternatives.find? (fun e => ciIsPrefixOf e.data t) with
  | some e => some (t.take e.data.length)
  | none => none

/-- `re.search(r'Name:\s*([A-Za-z\s]+)', text)` followed by `.group(1).strip()`. -/
def nameField (text : String) : Option String :=
  (reSearch (labelLettersAt "Name:".data) text.data).map (fun c => String.mk (pyStrip c))

/-- `re.search(r'ID Number[:/\s]+([0-9-]+)', text)` followed by `.group(1).strip()`. -/
def idNumberField (text : String) : Option String :=
  (reSearch idNumberAt text.data).map (fun c => String.mk (pyStrip c))

/-- `re.search(r'Nationality:\s*([A-Za-z\s]+)', text)` followed by `.group(1).strip()`. -/
def nationalityField (text : String) : Option String :=
  (reSearch (labelLettersAt "Nationality:".data) text.data).map (fun c => String.mk (pyStrip c))

/-- `re.search(r'Z\d{7}', text)` followed by `.group(0)` (no strip). -/
def passportField (text : String) : Option String :=
  (reSearch passportAt text.data).map String.mk

/-- `re.search(r'Profession:\s*([A-Za-z\s]+)', text)` followed by `.group(1).strip()`. -/
def professionField (text : String) : Option String :=
  (reSearch (labelLettersAt "Profession:".data) text.data).map (fun c => String.mk (pyStrip c))

/-- The place-of-issue search with `re.IGNORECASE`, `group(1)` (no strip). -/
def placeField (text : String) : Option String :=
  (reSearch placeAt text.data).map String.mk

/-- A conditional dict insertion: `if m: extracted_info[key] = value`. -/
def optEntry (key : String) (o : Option String) : Record :=
  match o with
  | some v => [(key, v)]
  | none => []

/-- `extract_using_regex` (source lines 100-134): the fallback extractor builds
a dict by conditionally inserting, in order, name, id_number, nationality,
passport_no, profession, place_of_issue. -/
def extract_using_regex (text : String) : Record :=
  optEntry "name" (nameField text) ++
  optEntry "id_number" (idNumberField text) ++
  optEntry "nationality" (nationalityField text) ++
  optEntry "passport_no" (passportField text) ++
  optEntry "profession" (professionField text) ++
  optEntry "place_of_issue" (placeField text)

/-- The dict comprehension at source lines 91 and 95:
every entry whose value is the exact string "Not Found" is dropped. -/
def mergeFilter (r : Record) : Record :=
  r.filter (fun kv => kv.2 ≠ "Not Found")

/-- The candidate record before the "Not Found" filter: the parsed JSON object
when `json.loads` succeeds, the regex fallback over the raw response otherwise
(the two branches of the inner `try` at source lines 88-95). -/
def candidateRecord (parse : String → Option Record) (result : String) : Record :=
  match parse result with
  | some info => info
  | none => extract_using_regex result

/-- The post-model part of `process_and_query` (source lines 88-95): parse the
model response as JSON; on `JSONDecodeError` run `extract_using_regex` over the
raw response; in both branches filter out "Not Found" values.  The JSON parser
is an external collaborator (`json.loads`), passed as a parameter. -/
def process_and_query (parse : String → Option Record) (result : String) : Record :=
  match parse result with
  | some info => mergeFilter info
  | none => mergeFilter (extract_using_regex result)

/-- Content of a JSON string literal after the opening quote: plain characters
up to the closing quote, no escape sequences.  Returns the content and the
rest after the closing quote. -/
def parseStringLit : List Char → Option (List Char × List Char)
  | [] => none
  | c :: cs =>
    if c = '"' then some ([], cs)
    else if c = '\\' then none
    else
      match parseStringLit cs with
      | some (s, r) => some (c :: s, r)
      | none => none

def skipWs (t : List Char) : List Char := t.dropWhile isPySpace

/-- Comma-separated `"key": "value"` pairs of a flat JSON object (fuel-bounded
recursion); returns the pairs and the rest (expected to start with the closing
brace). -/
def parsePairsAux : Nat → List Char → Option (Record × List Char)
  | 0, _ => none
  | fuel + 1, t =>
    match t with
    | '"' :: rest =>
      match parseStringLit rest with
      | none => none
      | some (k, r1) =>
        match skipWs r1 with
        | ':' :: r2 =>
          match skipWs r2 with
          | '"' :: r3 =>
            match parseStringLit r3 with
            | none => none
            | some (v, r4) =>
              match skipWs r4 with
              | ',' :: r5 =>
                match parsePairsAux fuel (skipWs r5) with
                | some (ps, r6) => some ((String.mk k, String.mk v) :: ps, r6)
                | none => none
              | r5 => some ([(String.mk k, String.mk v)], r5)
          | _ => none
        | _ => none
    | _ => none

/-- Model of the `json.loads` collaborator on the fragment relevant here: flat
JSON objects with distinct string keys and string values and no escape
sequences.  On every input it accepts, Python's `json.loads` returns the same
dict; on anything outside the fragment it returns `none`, standing for inputs
on which the source takes the `JSONDecodeError` branch (every concrete input
used below is genuinely invalid JSON). -/
def jsonParseFlat (s : String) : Option Record :=
  match skipWs s.data with
  | '{' :: rest =>
    match skipWs rest with
    | '}' :: r2 => if (skipWs r2).isEmpty then some [] else none
    | t =>
      match parsePairsAux t.length t with
      | some (ps, r) =>
        match skipWs r with
        | '}' :: r2 => if (skipWs r2).isEmpty then some ps else none
        | _ => none
      | none => none
  | _ => none

/-- A Textract block as consumed at source lines 151-154: only `BlockType` and
`Text` are read. -/
structure Block where
  blockType : String
  text : String
deriving DecidableEq

/-- The list comprehension at source lines 151-154: the texts of all blocks
whose `BlockType` is `LINE`, in response order. -/
def lineTexts (blocks : List Block) : List String :=
  (blocks.filter (fun b => b.blockType = "LINE")).map Block.text

/-- `extracted_text = " ".join(...)` (source lines 151-154). -/
def extractedText (blocks : List Block) : String :=
  String.intercalate " " (lineTexts blocks)

/-- Effect model of `extract_text_from_image` (source lines 136-163).  The S3
upload, the Textract call and the LLM processing are external collaborators,
modelled as `Except`-valued oracles (`upload` already carries the
"Error uploading to S3: " wrapper that `upload_to_s3` adds, and `process` the
"Error in LLM processing: " wrapper of `process_and_query`).  The second
component counts `delete_object` calls: the source calls it once, after
`process_and_query` returns, and the `except` handler re-raises the wrapped
exception without any cleanup. -/
def extract_text_from_image (upload : Except String Unit)
    (detect : Except String (List Block))
    (process : String → Except String Record) : Except String Record × Nat :=
  match upload with
  | .error e => (.error ("Error processing Emirates ID: " ++ e), 0)
  | .ok _ =>
    match detect with
    | .error e => (.error ("Error processing Emirates ID: " ++ e), 0)
    | .ok blocks =>
      match process (extractedText blocks) with
      | .error e => (.error ("Error processing Emirates ID: " ++ e), 0)
      | .ok info => (.ok info, 1)

/-- The spec's closed FieldKey enumeration (spec section 3). -/
def nineFieldKeys : List String :=
  ["name", "id_number", "nationality", "passport_no", "profession",
   "sponsor", "place_of_issue", "issue_date", "expiry_date"]

/-- The keys the regex fallback can produce, in source insertion order. -/
def regexFieldKeys : List String :=
  ["name", "id_number", "nationality", "passport_no", "profession", "place_of_issue"]

/-- A character of the Arabic Unicode block U+0600 - U+06FF. -/
def isArabicChar (c : Char) : Bool :=
  0x600 ≤ c.toNat && c.toNat ≤ 0x6FF

def containsArabic (s : String) : Bool := s.data.any isArabicChar

def containsLatin (s : String) : Bool := s.data.any isLatinLetter

/-- Modelled from the spec's words (section 4.1 LineFilter), for comparison
with the source: retain exactly the lines with at least one Latin letter and
no Arabic-block character, in order.  The source has no such filter. -/
def lineFilterSpec (lines : List String) : List String :=
  lines.filter (fun l => containsLatin l && !containsArabic l)

/-- Modelled from the spec's words (section 8, date format): a full-string
match of `\d{4}/\d{2}/\d{2}`. -/
def dateShape (s : String) : Bool :=
  match s.data with
  | [a, b, c, d, s1, e, f, s2, g, h] =>
    [a, b, c, d, e, f, g, h].all Char.isDigit && s1 = '/' && s2 = '/'
  | _ => false

/-! ### Helper lemmas -/

theorem mem_optEntry {k v key : String} {o : Option String}
    (h : (k, v) ∈ optEntry key o) : k = key := by
  cases o with
  | none => simp [optEntry] at h
  | some a =>
    simp only [optEntry, List.mem_singleton, Prod.mk.injEq] at h
    exact h.1

theorem mem_mergeFilter {k v : String} {r : Record} :
    (k, v) ∈ mergeFilter r ↔ (k, v) ∈ r ∧ v ≠ "Not Found" := by
  simp [mergeFilter, List.mem_filter]

theorem process_none (parse : String → Option Record) (result : String)
    (h : parse result = none) :
    process_and_query parse result = mergeFilter (extract_using_regex result) := by
  simp [process_and_query, h]

theorem process_some (parse : String → Option Record) (result : String) (info : Record)
    (h : parse result = some info) :
    process_and_query parse result = mergeFilter info := by
  simp [process_and_query, h]

theorem regex_keys {text k v : String} (h : (k, v) ∈ extract_using_regex text) :
    k = "name" ∨ k = "id_number" ∨ k = "nationality" ∨ k = "passport_no" ∨
    k = "profession" ∨ k = "place_of_issue" := by
  unfold extract_using_regex at h
  simp only [List.mem_append] at h
  rcases h with ((((h | h) | h) | h) | h) | h <;>
    simp [mem_optEntry h]

/-! ### Claims -/

/-- C1 (counterexample): the merge step does NOT drop empty values or
lowercase "not found".  With the model response `{"name": ""}` the parsed JSON
survives the filter and the returned record contains the key `name` with an
empty value; with `{"name": "not found"}` the lowercase sentinel survives too.
This falsifies the claim that every key whose value is empty after trimming or
case-insensitively equals "not found" is removed. -/
theorem C1_counterexample :
    process_and_query jsonParseFlat "\x7b\x22name\x22: \x22\x22\x7d" = [("name", "")] ∧
    process_and_query jsonParseFlat "\x7b\x22name\x22: \x22not found\x22\x7d" =
      [("name", "not found")] := by
  constructor <;> decide

/-- C1 (amended): on both extraction paths, the merge step removes exactly the
entries whose value is the exact, case-sensitive, untrimmed string
"Not Found"; every other entry of the candidate record — including empty
strings and other casings of "not found" — is kept. -/
theorem C1_merge_exact_sentinel (parse : String → Option Record) (result : String)
    (k v : String) :
    (k, v) ∈ process_and_query parse result ↔
      (k, v) ∈ candidateRecord parse result ∧ v ≠ "Not Found" := by
  cases h : parse result with
  | none => rw [process_none parse result h]; simp [candidateRecord, h, mem_mergeFilter]
  | some info => rw [process_some parse result info h]; simp [candidateRecord, h, mem_mergeFilter]

/-- C5: when the model response is not valid JSON (the parse collaborator
yields no record), `process_and_query` does not raise: it returns the
"Not Found"-filtered regex fallback applied to the raw response text.  The
witness instantiates this at the spec's example `"Name: JANE DOE"`, which is
not valid JSON, and obtains the record `[("name", "JANE DOE")]`. -/
theorem C5_fallback_on_parse_failure (parse : String → Option Record) (result : String)
    (h : parse result = none) :
    process_and_query parse result = mergeFilter (extract_using_regex result) :=
  process_none parse result h

theorem C5_witness :
    jsonParseFlat "Name: JANE DOE" = none ∧
    process_and_query jsonParseFlat "Name: JANE DOE" = [("name", "JANE DOE")] := by
  refine ⟨by decide, ?_⟩
  rw [C5_fallback_on_parse_failure jsonParseFlat "Name: JANE DOE" (by decide)]
  decide

/-- C6: if the JSON parse fails and the regex fallback finds no field,
`process_and_query` returns the empty record — a valid success outcome, not an
error. -/
theorem C6_empty_record_on_no_fields (parse : String → Option Record) (result : String)
    (h : parse result = none) (h2 : extract_using_regex result = []) :
    process_and_query parse result = [] := by
  rw [process_none parse result h, h2]
  rfl

theorem C6_witness : process_and_query jsonParseFlat "@@@" = [] :=
  C6_empty_record_on_no_fields jsonParseFlat "@@@" (by decide) (by decide)

/-- C7: the merge step of `process_and_query` (the dict comprehension dropping
"Not Found" values) is idempotent: `mergeFilter (mergeFilter r) = mergeFilter r`
for every record `r`. -/
theorem C7_merge_idempotent (r : Record) :
    mergeFilter (mergeFilter r) = mergeFilter r := by
  simp [mergeFilter, List.filter_filter]

/-- C9: every key produced by the regex fallback `extract_using_regex` lies in
the six-element set `regexFieldKeys`; in particular the fallback never
produces the keys "sponsor", "issue_date" or "expiry_date". -/
theorem C9_regex_keys_subset (text k v : String)
    (h : (k, v) ∈ extract_using_regex text) :
    k ∈ regexFieldKeys ∧ k ∉ ["sponsor", "issue_date", "expiry_date"] := by
  rcases regex_keys h with h6 | h6 | h6 | h6 | h6 | h6 <;> rw [h6] <;> decide

theorem C9_witness :
    "name" ∈ regexFieldKeys ∧ "name" ∉ ["sponsor", "issue_date", "expiry_date"] :=
  C9_regex_keys_subset "Name: AB" "name" "AB" (by decide)

/-- C2 (counterexample): no Arabic filtering happens at source lines 151-154.
A LINE block whose text is the Arabic word "سم" (U+0633, U+0645) is NOT
excluded: the joined extracted text is that Arabic text itself, although the
text contains Arabic-block characters and the spec's LineFilter would drop the
line. -/
theorem C2_counterexample :
    extractedText [⟨"LINE", String.mk [Char.ofNat 1587, Char.ofNat 1605]⟩] =
      String.mk [Char.ofNat 1587, Char.ofNat 1605] ∧
    containsArabic (String.mk [Char.ofNat 1587, Char.ofNat 1605]) = true ∧
    lineFilterSpec [String.mk [Char.ofNat 1587, Char.ofNat 1605]] = [] := by
  exact ⟨rfl, by decide, by decide⟩

/-- C2 (amended): the OCR stage applies no script-based filtering: the text of
every block whose `BlockType` is `LINE` — Arabic characters or not — is among
the texts that are space-joined into the text handed to extraction, in input
order; excluding Arabic text is delegated entirely to the language-model
prompt. -/
theorem C2_all_line_blocks_retained (blocks : List Block) (b : Block)
    (hb : b ∈ blocks) (ht : b.blockType = "LINE") :
    b.text ∈ lineTexts blocks := by
  unfold lineTexts
  exact List.mem_map_of_mem _ (List.mem_filter.mpr ⟨hb, by simp [ht]⟩)

theorem C2_witness :
    (String.mk [Char.ofNat 1587, Char.ofNat 1605]) ∈
      lineTexts [⟨"LINE", String.mk [Char.ofNat 1587, Char.ofNat 1605]⟩] :=
  C2_all_line_blocks_retained
    [⟨"LINE", String.mk [Char.ofNat 1587, Char.ofNat 1605]⟩]
    ⟨"LINE", String.mk [Char.ofNat 1587, Char.ofNat 1605]⟩
    (by decide) (by decide)

/-- C3 (counterexample): the parsed-JSON path passes the model's keys through
unchanged, so a key outside the nine-element FieldKey set can appear in the
returned record: the model response `{"foo": "bar"}` yields the record
`[("foo", "bar")]` although "foo" is not a FieldKey. -/
theorem C3_counterexample :
    process_and_query jsonParseFlat "\x7b\x22foo\x22: \x22bar\x22\x7d" = [("foo", "bar")] ∧
    "foo" ∉ nineFieldKeys := by
  constructor <;> decide

/-- C3 (amended): only the regex-fallback path guarantees the closed key set —
when the JSON parse fails, every key of the returned record lies in the
nine-element FieldKey set (indeed in its six-element subset `regexFieldKeys`);
on the parsed-JSON path the model's keys are returned unchanged, so arbitrary
keys can appear. -/
theorem C3_fallback_keys_closed (parse : String → Option Record) (result : String)
    (h : parse result = none) (k v : String)
    (hm : (k, v) ∈ process_and_query parse result) :
    k ∈ nineFieldKeys := by
  rw [process_none parse result h] at hm
  have h6 := regex_keys (mem_mergeFilter.mp hm).1
  rcases h6 with h6 | h6 | h6 | h6 | h6 | h6 <;> rw [h6] <;> decide

theorem C3_witness : "name" ∈ nineFieldKeys :=
  C3_fallback_keys_closed (fun _ => none) "Name: AB" rfl "name" "AB" (by decide)

/-- C4 (code bug): `delete_object` is called only on the all-success path.
The first conjunct shows that in every execution the staged object is deleted
once when the stage returns a record and zero times when any collaborator
raises (the `except` handler re-raises without cleanup); the remaining
conjuncts evaluate the failing inputs — a raising Textract call and a raising
LLM stage — where the delete count is 0, and the success path where it is 1.
The claim's "deleted exactly once ... when they raise" is violated. -/
theorem C4_delete_only_on_success :
    (∀ u d p, (extract_text_from_image u d p).2 =
        if (extract_text_from_image u d p).1.toOption.isSome then 1 else 0) ∧
    (extract_text_from_image (.ok ()) (.error "detection failed") (fun _ => .ok [])).2 = 0 ∧
    (extract_text_from_image (.ok ()) (.ok []) (fun _ => .error "LLM failed")).2 = 0 ∧
    (extract_text_from_image (.ok ()) (.ok []) (fun _ => .ok [])).2 = 1 := by
  refine ⟨?_, rfl, rfl, rfl⟩
  intro u d p
  cases u with
  | error e => rfl
  | ok _ =>
    cases d with
    | error e => rfl
    | ok blocks =>
      cases hp : p (extractedText blocks) with
      | error e => simp [extract_text_from_image, hp, Except.toOption]
      | ok info => simp [extract_text_from_image, hp, Except.toOption]

/-- C8 (counterexample): date values are not constrained to the shape
`\d{4}/\d{2}/\d{2}`: the model response `{"issue_date": "tomorrow"}` parses as
JSON and the value "tomorrow" is passed through to the returned record
although it does not match the date shape. -/
theorem C8_counterexample :
    process_and_query jsonParseFlat "\x7b\x22issue_date\x22: \x22tomorrow\x22\x7d" =
      [("issue_date", "tomorrow")] ∧
    dateShape "tomorrow" = false := by
  constructor <;> decide

/-- C8 (amended): the regex fallback has no date patterns at all, so an
issue_date or expiry_date entry in the returned record can only come from the
parsed-JSON path, where it is passed through unchanged and unvalidated — no
shape guarantee holds for it. -/
theorem C8_dates_only_from_json (parse : String → Option Record) (result : String)
    (k v : String) (hk : k = "issue_date" ∨ k = "expiry_date")
    (hm : (k, v) ∈ process_and_query parse result) :
    ∃ info, parse result = some info ∧ (k, v) ∈ info := by
  cases hp : parse result with
  | none =>
    rw [process_none parse result hp] at hm
    have h6 := regex_keys (mem_mergeFilter.mp hm).1
    rcases hk with hk | hk <;> subst hk <;>
      rcases h6 with h6 | h6 | h6 | h6 | h6 | h6 <;> exact absurd h6 (by decide)
  | some info =>
    rw [process_some parse result info hp] at hm
    exact ⟨info, rfl, (mem_mergeFilter.mp hm).1⟩

theorem C8_witness :
    ∃ info, jsonParseFlat "\x7b\x22issue_date\x22: \x222024/01/01\x22\x7d" = some info ∧
      ("issue_date", "2024/01/01") ∈ info :=
  C8_dates_only_from_json jsonParseFlat "\x7b\x22issue_date\x22: \x222024/01/01\x22\x7d"
    "issue_date" "2024/01/01" (Or.inl rfl) (by decide)

/-- C10: the fallback's name pattern `Name:\s*([A-Za-z\s]+)` captures a
maximal run of Latin letters and whitespace, so it over-captures past the
field into the next label: on `"Name: JANE DOE Nationality: UAE"` the fallback
returns `name = "JANE DOE Nationality"` (and `nationality = "UAE"`). -/
theorem C10_name_overcapture :
    extract_using_regex "Name: JANE DOE Nationality: UAE" =
      [("name", "JANE DOE Nationality"), ("nationality", "UAE")] := by
  decide
